import Mathlib

/-!
Verification of the request-dispatch core of a typed HTTP API client
(`lemmy-client-rs`).  The embedding below models, from the source:

* `build_route` (src/lemmy_client_internal.rs, lines 12-17),
* the `WithHeaders` implementations for the native (reqwest) backend
  (lines 147-162) and the browser (gloo/wasm) backend (lines 50-56),
* the `MaybeWithJwt` implementations (lines 58-69 and 164-172),
* `Fetch::build_fetch_query` (lines 40-43),
* the two `make_request` implementations (browser: lines 72-125,
  native: lines 194-237), and
* the untagged response envelope `MyResult` (lines 205-219) together with
  the serde shape of `LemmyClientError` (src/error.rs).

Serialization of caller-supplied form types (serde_json / serde_urlencoded)
and deserialization of response types are abstracted as function
parameters, exactly as the Rust code is generic over `Form: LemmyForm` and
`Response: LemmyResponse`.
-/

/-- Configuration value, from `ClientOptions` in src/utils.rs. -/
structure ClientOptions where
  domain : String
  secure : Bool
  jwt : Option String
deriving DecidableEq, Repr

/-- Request envelope, from `LemmyRequest { body, jwt }`. -/
structure LemmyRequest (F : Type) where
  body : F
  jwt : Option String

/-- HTTP methods; the crate matches on GET, POST, PUT and a catch-all. -/
inductive Method where
  | GET
  | POST
  | PUT
  | other (s : String)
deriving DecidableEq, Repr

/-- Function `build_route` from src/lemmy_client_internal.rs:
`format!("http{}://{domain}/api/v3/{route}", if *secure {"s"} else {""})`. -/
def build_route (route : String) (opts : ClientOptions) : String :=
  "http" ++ (if opts.secure then "s" else "") ++ "://" ++ opts.domain ++ "/api/v3/" ++ route

/-- Rust's `char::eq_ignore_ascii_case`, lifted pointwise. -/
def asciiLower (c : Char) : Char :=
  if 'A' ≤ c ∧ c ≤ 'Z' then Char.ofNat (c.toNat + 32) else c

/-- Rust's `str::eq_ignore_ascii_case` on header names. -/
def eqIgnoreAsciiCase (a b : String) : Bool :=
  a.data.map asciiLower == b.data.map asciiLower

/-- The fixed default user-agent header added by the native backend. -/
def defaultUserAgent : String × String := ("user-agent", "Lemmy-Client-rs/0.19.3")

/-- The check `key.eq_ignore_ascii_case("user-agent")` on a header pair. -/
def uaPred (kv : String × String) : Bool := eqIgnoreAsciiCase kv.1 "user-agent"

/-- Native `WithHeaders for reqwest::RequestBuilder`: fold every extra
header onto the builder, then add the default user-agent unless some key
equals "user-agent" ignoring ASCII case (lines 147-162). The builder's
header list is modelled as a list in application order. -/
def withHeadersNative (acc : List (String × String)) (headers : List (String × String)) :
    List (String × String) :=
  let applied := acc ++ headers
  if headers.any uaPred then
    applied
  else
    applied ++ [defaultUserAgent]

/-- Browser `WithHeaders for RequestBuilder`: fold every extra header onto
the builder; no default user-agent (lines 50-56). -/
def withHeadersWasm (acc : List (String × String)) (headers : List (String × String)) :
    List (String × String) :=
  acc ++ headers

/-- Trait `MaybeWithJwt`: when a token is present, attach
`Authorization: Bearer {jwt}`; otherwise leave the builder unchanged.
Both backends share this shape (lines 58-69, 164-172); the attached
Authorization value is modelled directly. -/
def maybeWithJwt (auth : Option String) (jwt : Option String) : Option String :=
  match jwt with
  | some t => some ("Bearer " ++ t)
  | none => auth

/-- The observable parts of a built request. -/
structure BuiltRequest where
  method : Method
  url : String
  headers : List (String × String)
  auth : Option String
  body : Option String
deriving DecidableEq, Repr

/-- Outcome of request building: a request, a builder-stage error
(reqwest stores a query-serialization error and surfaces it at `send`),
or the `unreachable!` contract-violation branch. -/
inductive BuildOutcome where
  | req (r : BuiltRequest)
  | buildErr
  | unreachableBranch
deriving DecidableEq, Repr

/-- Project the built request out of an outcome, when there is one. -/
def BuildOutcome.builtReq : BuildOutcome → Option BuiltRequest
  | .req r => some r
  | _ => none

/-- Function `Fetch::build_fetch_query` (lines 40-43):
`serde_urlencoded::to_string(form).unwrap_or_else(|_| path.to_string())`
then `format!("{}?{}", build_route(path, &self.0), form_str)`.
`toQuery` stands for `serde_urlencoded::to_string`, `none` for its
failure. -/
def build_fetch_query {F : Type} (opts : ClientOptions) (toQuery : F → Option String)
    (path : String) (form : F) : String :=
  build_route path opts ++ "?" ++ ((toQuery form).getD path)

/-- Native `ClientWrapper::make_request` request construction
(lines 221-232): build the route; GET attaches the form as a URL query
(a serialization failure is held by the builder and surfaces as an error,
never a panic), POST/PUT attach the form as a JSON body; any other method
hits `unreachable!`.  Headers are applied per `withHeadersNative`, and the
token is `request.jwt` falling back to `options.jwt`
(`jwt.as_deref().or(self.options.jwt.as_deref())`). -/
def makeRequestNative {F : Type} (toJson : F → String) (toQuery : F → Option String)
    (opts : ClientOptions) (method : Method) (path : String)
    (request : LemmyRequest F) (headers : List (String × String)) : BuildOutcome :=
  let route := build_route path opts
  let finish : BuiltRequest → BuildOutcome := fun r =>
    .req { r with
            headers := withHeadersNative r.headers headers,
            auth := maybeWithJwt r.auth
              (match request.jwt with
               | some t => some t
               | none => opts.jwt) }
  match method with
  | .GET =>
      match toQuery request.body with
      | some q => finish ⟨.GET, route ++ "?" ++ q, [], none, none⟩
      | none => .buildErr
  | .POST => finish ⟨.POST, route, [], none, some (toJson request.body)⟩
  | .PUT => finish ⟨.PUT, route, [], none, some (toJson request.body)⟩
  | .other _ => .unreachableBranch

/-- Browser `Fetch::make_request` request construction (lines 83-119):
GET targets `build_fetch_query` (with its silent fallback), POST/PUT
target the bare route and attach the form as a JSON body; any other
method hits `unreachable!`.  Headers are applied per `withHeadersWasm`,
and the token is `request.jwt` only — the client-default `options.jwt`
is never consulted. -/
def makeRequestWasm {F : Type} (toJson : F → String) (toQuery : F → Option String)
    (opts : ClientOptions) (method : Method) (path : String)
    (request : LemmyRequest F) (headers : List (String × String)) : BuildOutcome :=
  let route := build_route path opts
  let finish : BuiltRequest → BuildOutcome := fun r =>
    .req { r with
            headers := withHeadersWasm r.headers headers,
            auth := maybeWithJwt r.auth request.jwt }
  match method with
  | .GET => finish ⟨.GET, build_fetch_query opts toQuery path request.body, [], none, none⟩
  | .POST => finish ⟨.POST, route, [], none, some (toJson request.body)⟩
  | .PUT => finish ⟨.PUT, route, [], none, some (toJson request.body)⟩
  | .other _ => .unreachableBranch

/-- The error sum type from src/error.rs: `Other` wraps a local
transport/decode failure (serde `skip`: never produced by
deserialization), `Lemmy` carries the structured API error. `E` stands
for the upstream `LemmyErrorType`. -/
inductive LemmyClientError (E : Type) where
  | other (msg : String)
  | lemmy (e : E)
deriving DecidableEq, Repr

/-- The untagged response envelope `MyResult<R>` (lines 205-210). -/
inductive MyResult (R E : Type) where
  | ok (r : R)
  | err (e : LemmyClientError E)
deriving DecidableEq, Repr

/-- serde deserialization of `LemmyClientError`: the `Other` variant is
`#[serde(skip)]`, so only the untagged `Lemmy` variant can decode; `decE`
stands for the upstream `LemmyErrorType` deserializer over wire bodies
`W`. -/
def decodeLemmyClientError {W E : Type} (decE : W → Option E) (w : W) :
    Option (LemmyClientError E) :=
  (decE w).map .lemmy

/-- serde deserialization of the `#[serde(untagged)]` envelope
`MyResult<R>`: variants are attempted in declaration order, `Ok(R)` first,
then `Err(LemmyClientError)`. -/
def decodeMyResult {W R E : Type} (decR : W → Option R) (decE : W → Option E) (w : W) :
    Option (MyResult R E) :=
  match decR w with
  | some r => some (.ok r)
  | none => (decodeLemmyClientError decE w).map .err

/-- Conversion `From<MyResult<R>> for Result<R, LemmyClientError>` (lines 212-219). -/
def MyResult.intoResult {R E : Type} : MyResult R E → Except (LemmyClientError E) R
  | .ok r => .ok r
  | .err e => .error e

/-- Native response handling (lines 232-236):
`.json::<MyResult<Response>>()` then `.into()`; a body decoding as neither
shape is a reqwest decode error, converted to `Other` by
`From<reqwest::Error>` (src/error.rs, lines 22-27). -/
def responseNative {W R E : Type} (decR : W → Option R) (decE : W → Option E) (w : W) :
    Except (LemmyClientError E) R :=
  match decodeMyResult decR decE w with
  | some m => m.intoResult
  | none => .error (.other "error decoding response body")

/-- Browser response handling (lines 120-124): `.json::<Response>()`
decodes the success shape only; any failure is converted into the opaque
error variant (`map_err(Into::into)`). -/
def responseWasm {W R E : Type} (decR : W → Option R) (w : W) :
    Except (LemmyClientError E) R :=
  match decR w with
  | some r => .ok r
  | none => .error (.other "error decoding response body")

/-- Decoding contract as the spec words it: a body matching the success
shape yields the typed response; a body matching only the structured-error
shape yields the structured error; a body matching neither yields the
opaque error. Written from the spec's words, to be compared with
`responseNative`. -/
def specDecode {W R E : Type} (decR : W → Option R) (decE : W → Option E) (w : W) :
    Except (LemmyClientError E) R :=
  match decR w, decE w with
  | some r, _ => .ok r
  | none, some e => .error (.lemmy e)
  | none, none => .error (.other "error decoding response body")

/-- Number of caller headers whose name is "user-agent" up to ASCII case. -/
def countUA (hs : List (String × String)) : Nat := hs.countP uaPred

/-- Sample configuration used to instantiate theorems at concrete inputs. -/
def optsEx : ClientOptions := ⟨"lemmy.example", true, none⟩

/-- Sample form serializer (`F := String`, JSON encoding is the identity). -/
def strJson (s : String) : String := s

/-- Sample always-succeeding URL-query serializer for `F := String`. -/
def strQuery (s : String) : Option String := some s

/-- Sample response deserializer: accepts exactly the body "body-ok". -/
def decOk (w : String) : Option Nat := if w = "body-ok" then some 7 else none

/-- Sample structured-error deserializer: accepts exactly "body-err". -/
def decErrShape (w : String) : Option String :=
  if w = "body-err" then some "incorrect_login" else none

theorem build_route_data (p : String) (opts : ClientOptions) :
    (build_route p opts).data =
      (if opts.secure then ['h','t','t','p','s',':','/','/'] else ['h','t','t','p',':','/','/'])
        ++ (opts.domain.data ++ '/' :: (['a','p','i','/','v','3','/'] ++ p.data)) := by
  cases h : opts.secure <;>
    simp [build_route, h, String.data_append]

theorem splitAtFirst {c : Char} : ∀ (a₁ a₂ b₁ b₂ : List Char),
    c ∉ a₁ → c ∉ a₂ → a₁ ++ c :: b₁ = a₂ ++ c :: b₂ → a₁ = a₂ ∧ b₁ = b₂ := by
  intro a₁
  induction a₁ with
  | nil =>
    intro a₂ b₁ b₂ _ h₂ h
    cases a₂ with
    | nil => simpa using h
    | cons x xs =>
      simp only [List.nil_append, List.cons_append, List.cons.injEq] at h
      exact absurd (h.1 ▸ List.mem_cons_self x xs) h₂
  | cons x xs ih =>
    intro a₂ b₁ b₂ h₁ h₂ h
    cases a₂ with
    | nil =>
      simp only [List.cons_append, List.nil_append, List.cons.injEq] at h
      exact absurd (h.1.symm ▸ List.mem_cons_self x xs) h₁
    | cons y ys =>
      simp only [List.cons_append, List.cons.injEq] at h
      have := ih ys b₁ b₂ (fun hc => h₁ (List.mem_cons_of_mem x hc))
        (fun hc => h₂ (List.mem_cons_of_mem y hc)) h.2
      exact ⟨by rw [h.1, this.1], this.2⟩

theorem build_route_inj (d₁ d₂ p₁ p₂ : String) (s₁ s₂ : Bool) (j₁ j₂ : Option String)
    (h₁ : '/' ∉ d₁.data) (h₂ : '/' ∉ d₂.data)
    (h : build_route p₁ ⟨d₁, s₁, j₁⟩ = build_route p₂ ⟨d₂, s₂, j₂⟩) :
    d₁ = d₂ ∧ s₁ = s₂ ∧ p₁ = p₂ := by
  have hd := congrArg String.data h
  rw [build_route_data, build_route_data] at hd
  simp only at hd
  have hs : s₁ = s₂ := by
    cases s₁ <;> cases s₂ <;> first | rfl | (exfalso; simp at hd)
  subst hs
  have hd' : d₁.data ++ '/' :: (['a','p','i','/','v','3','/'] ++ p₁.data)
      = d₂.data ++ '/' :: (['a','p','i','/','v','3','/'] ++ p₂.data) := by
    cases s₁ <;> simp only [if_true, Bool.false_eq_true, if_false] at hd <;>
      exact List.append_cancel_left hd
  have hsplit := splitAtFirst d₁.data d₂.data _ _ h₁ h₂ hd'
  refine ⟨String.ext hsplit.1, rfl, ?_⟩
  exact String.ext (List.append_cancel_left hsplit.2)

/-- Claim C8: `build_route` is a pure total function returning exactly
`http://{domain}/api/v3/{path}` when `secure` is false and
`https://{domain}/api/v3/{path}` when `secure` is true; the path appears
verbatim after a prefix that does not depend on it, so it is not encoded
or otherwise altered. -/
theorem C8_build_route_exact (d : String) (s : Bool) (j : Option String) (p : String) :
    build_route p ⟨d, s, j⟩ = (if s then "https://" else "http://") ++ d ++ "/api/v3/" ++ p
    ∧ build_route p ⟨d, s, j⟩ = ((if s then "https://" else "http://") ++ d ++ "/api/v3/") ++ p := by
  constructor <;>
    · cases s <;> (apply String.ext; simp [build_route, String.data_append])

/-- Claim C5 counterexample: `build_route` is not injective in the triple
(domain, secure, path): two distinct triples collide when the domain
itself contains a `/api/v3/`-shaped segment. -/
theorem C5_counterexample :
    build_route "c" ⟨"a/api/v3/b", true, none⟩ = build_route "b/api/v3/c" ⟨"a", true, none⟩
    ∧ (("a/api/v3/b" : String), true, ("c" : String)) ≠ (("a" : String), true, ("b/api/v3/c" : String)) :=
  ⟨rfl, by decide⟩

/-- Claim C5 (amended): `build_route` agrees with the documented examples,
and restricted to domains containing no `/` character it is injective in
(domain, secure, path): two calls produce the same URL exactly when the
triples are equal. -/
theorem C5_route_props (d₁ d₂ p₁ p₂ : String) (s₁ s₂ : Bool) (j₁ j₂ : Option String)
    (h₁ : '/' ∉ d₁.data) (h₂ : '/' ∉ d₂.data) :
    (build_route p₁ ⟨d₁, s₁, j₁⟩ = build_route p₂ ⟨d₂, s₂, j₂⟩ ↔ (d₁ = d₂ ∧ s₁ = s₂ ∧ p₁ = p₂))
    ∧ build_route "user/login" ⟨"lemmy.example", true, none⟩ = "https://lemmy.example/api/v3/user/login"
    ∧ build_route "user/login" ⟨"lemmy.example", false, none⟩ = "http://lemmy.example/api/v3/user/login" := by
  refine ⟨⟨fun h => build_route_inj d₁ d₂ p₁ p₂ s₁ s₂ j₁ j₂ h₁ h₂ h, ?_⟩, rfl, rfl⟩
  rintro ⟨rfl, rfl, rfl⟩
  rfl

/-- Claim C5 witness: the amended statement evaluated at two concrete
slash-free domains. -/
theorem C5_route_props_witness :
    (build_route "user/login" ⟨"lemmy.example", true, none⟩
        = build_route "post/list" ⟨"lemmy.ml", true, none⟩
      ↔ (("lemmy.example" : String) = "lemmy.ml" ∧ True = True
          ∧ ("user/login" : String) = "post/list"))
    ∧ build_route "user/login" ⟨"lemmy.example", true, none⟩ = "https://lemmy.example/api/v3/user/login"
    ∧ build_route "user/login" ⟨"lemmy.example", false, none⟩ = "http://lemmy.example/api/v3/user/login" := by
  have h := C5_route_props "lemmy.example" "lemmy.ml" "user/login" "post/list" true true none none
    (by decide) (by decide)
  simpa using h

/-- Claim C10: in the browser backend's GET query construction, a failed
URL-encoding of the form silently falls back to the path string, giving
`{absolute_route}?{path}`; a successful encoding gives
`{absolute_route}?{encoded_form}`; and the browser GET request's URL is
exactly `build_fetch_query`'s output. -/
theorem C10_fetch_query {F : Type} (opts : ClientOptions) (toQuery : F → Option String)
    (path : String) (form : F) :
    (toQuery form = none →
      build_fetch_query opts toQuery path form = build_route path opts ++ "?" ++ path)
    ∧ (∀ q, toQuery form = some q →
      build_fetch_query opts toQuery path form = build_route path opts ++ "?" ++ q)
    ∧ (∀ (toJson : F → String) (jwt : Option String) (headers : List (String × String)),
      (makeRequestWasm toJson toQuery opts .GET path ⟨form, jwt⟩ headers).builtReq.map
          BuiltRequest.url
        = some (build_fetch_query opts toQuery path form)) := by
  refine ⟨fun h => ?_, fun q h => ?_, fun toJson jwt headers => rfl⟩
  · simp [build_fetch_query, h]
  · simp [build_fetch_query, h]

/-- Claim C10 witness: the fallback and success cases evaluated at a
concrete configuration; with encoding failing the URL ends in `?{path}`,
with it succeeding in `?{encoded}`. -/
theorem C10_fetch_query_witness :
    ((fun _ : String => (none : Option String)) "f" = none →
      build_fetch_query optsEx (fun _ : String => none) "post/list" "f"
        = build_route "post/list" optsEx ++ "?" ++ "post/list")
    ∧ (strQuery "page=1" = some "page=1" →
      build_fetch_query optsEx strQuery "post/list" "page=1"
        = build_route "post/list" optsEx ++ "?" ++ "page=1") :=
  ⟨fun h => (C10_fetch_query optsEx (fun _ => none) "post/list" "f").1 h,
   fun h => (C10_fetch_query optsEx strQuery "post/list" "page=1").2.1 "page=1" h⟩

/-- Claim C9: with the method restricted to GET, POST or PUT, neither
backend's `make_request` reaches the `unreachable!` branch; for any method
outside that set both backends hit the unreachable-state contract rather
than returning a recoverable outcome. -/
theorem C9_method_contract {F : Type} (toJson : F → String) (toQuery : F → Option String)
    (opts : ClientOptions) (method : Method) (path : String)
    (request : LemmyRequest F) (headers : List (String × String)) :
    ((method = .GET ∨ method = .POST ∨ method = .PUT) →
      makeRequestNative toJson toQuery opts method path request headers ≠ .unreachableBranch
      ∧ makeRequestWasm toJson toQuery opts method path request headers ≠ .unreachableBranch)
    ∧ (∀ s, method = .other s →
      makeRequestNative toJson toQuery opts method path request headers = .unreachableBranch
      ∧ makeRequestWasm toJson toQuery opts method path request headers = .unreachableBranch) := by
  constructor
  · rintro (rfl | rfl | rfl) <;>
      exact ⟨by cases h : toQuery request.body <;> simp [makeRequestNative, h],
        by simp [makeRequestWasm]⟩
  · rintro s rfl
    exact ⟨rfl, rfl⟩

/-- Claim C9 witness: the contract evaluated at GET (never unreachable)
and at PATCH (always unreachable) on concrete inputs. -/
theorem C9_method_contract_witness :
    (makeRequestNative strJson strQuery optsEx .GET "user/login" ⟨"", none⟩ [] ≠ .unreachableBranch
      ∧ makeRequestWasm strJson strQuery optsEx .GET "user/login" ⟨"", none⟩ [] ≠ .unreachableBranch)
    ∧ (makeRequestNative strJson strQuery optsEx (.other "PATCH") "user/login" ⟨"", none⟩ []
          = .unreachableBranch
      ∧ makeRequestWasm strJson strQuery optsEx (.other "PATCH") "user/login" ⟨"", none⟩ []
          = .unreachableBranch) :=
  ⟨(C9_method_contract strJson strQuery optsEx .GET "user/login" ⟨"", none⟩ []).1 (Or.inl rfl),
   (C9_method_contract strJson strQuery optsEx (.other "PATCH") "user/login" ⟨"", none⟩ []).2
     "PATCH" rfl⟩

/-- Claim C6: when a wire body structurally decodes under both the success
shape and the structured-error shape, the untagged `MyResult` decoder
attempts the success shape first, so the envelope decodes to the success
variant and the native pipeline returns the typed response, never the
error variant. -/
theorem C6_untagged_success_first {W R E : Type} (decR : W → Option R) (decE : W → Option E)
    (w : W) (r : R) (e : E) (hR : decR w = some r) (_hE : decE w = some e) :
    decodeMyResult decR decE w = some (.ok r)
    ∧ responseNative decR decE w = .ok r
    ∧ ∀ e', decodeMyResult decR decE w ≠ some (.err e') := by
  refine ⟨by simp [decodeMyResult, hR], by simp [responseNative, decodeMyResult, hR, MyResult.intoResult], ?_⟩
  intro e'
  simp [decodeMyResult, hR]

/-- Claim C6 witness: a wire body accepted by both a success-shape decoder
and an error-shape decoder resolves to the success variant. -/
theorem C6_untagged_success_first_witness :
    decodeMyResult (fun _ : String => some 7) (fun _ : String => some "overlap") "body" = some (.ok 7)
    ∧ responseNative (fun _ : String => some 7) (fun _ : String => some "overlap") "body" = .ok 7
    ∧ ∀ e', decodeMyResult (fun _ : String => some 7) (fun _ : String => some "overlap") "body"
        ≠ some (.err e') :=
  C6_untagged_success_first (fun _ => some 7) (fun _ => some "overlap") "body" 7 "overlap" rfl rfl

/-- Claim C1: on the browser backend a request with no per-call token gets
no Authorization header even when the client-default token is set, while
the native backend attaches `Bearer A` from the client default on the same
input. -/
theorem C1_wasm_ignores_default_jwt :
    (makeRequestWasm strJson strQuery ⟨"lemmy.example", true, some "A"⟩ .POST "user/login"
        ⟨"", none⟩ []).builtReq.map BuiltRequest.auth = some none
    ∧ (makeRequestNative strJson strQuery ⟨"lemmy.example", true, some "A"⟩ .POST "user/login"
        ⟨"", none⟩ []).builtReq.map BuiltRequest.auth = some (some "Bearer A")
    ∧ (makeRequestWasm strJson strQuery ⟨"lemmy.example", true, some "A"⟩ .POST "user/login"
        ⟨"", some "B"⟩ []).builtReq.map BuiltRequest.auth = some (some "Bearer B") :=
  ⟨rfl, rfl, rfl⟩

/-- Claim C3 counterexample: with no caller-supplied headers at all, the
browser backend attaches no user-agent header, while the native backend
attaches the default; so the default is not applied on both backends. -/
theorem C3_counterexample :
    ([] : List (String × String)).any uaPred = false
    ∧ (makeRequestWasm strJson strQuery optsEx .POST "x" ⟨"", none⟩ []).builtReq.map
        BuiltRequest.headers = some []
    ∧ (makeRequestNative strJson strQuery optsEx .POST "x" ⟨"", none⟩ []).builtReq.map
        BuiltRequest.headers = some [defaultUserAgent] :=
  ⟨rfl, rfl, rfl⟩

theorem countUA_any (headers : List (String × String)) :
    headers.any uaPred = true ↔ countUA headers ≠ 0 := by
  rw [List.any_eq_true, Ne, countUA, List.countP_eq_zero]
  push_neg
  constructor
  · rintro ⟨a, ha, hpa⟩; exact ⟨a, ha, hpa⟩
  · rintro ⟨a, ha, hpa⟩; exact ⟨a, ha, hpa⟩

/-- Claim C3 (amended): on the native backend the default user-agent is
applied exactly when no caller header matches "user-agent" under ASCII
case-insensitive comparison, and the number of user-agent headers of the
result is one when the caller supplied none and unchanged otherwise (no
duplication); the browser backend applies the caller's headers verbatim
and never adds a default user-agent. -/
theorem C3_user_agent_default (acc headers : List (String × String)) :
    withHeadersWasm acc headers = acc ++ headers
    ∧ withHeadersNative acc headers =
        (if headers.any uaPred then acc ++ headers else acc ++ headers ++ [defaultUserAgent])
    ∧ countUA (withHeadersNative [] headers) = (if countUA headers = 0 then 1 else countUA headers) := by
  refine ⟨rfl, rfl, ?_⟩
  by_cases h : headers.any uaPred = true
  · have hne : countUA headers ≠ 0 := (countUA_any headers).mp h
    rw [withHeadersNative, if_pos h, if_neg hne]
    simp [countUA]
  · have heq : countUA headers = 0 := by
      by_contra hne
      exact h ((countUA_any headers).mpr hne)
    rw [withHeadersNative, if_neg h, if_pos heq]
    show List.countP uaPred ([] ++ headers ++ [defaultUserAgent]) = 1
    rw [List.countP_append, List.nil_append]
    show countUA headers + List.countP uaPred [defaultUserAgent] = 1
    rw [heq]
    decide

/-- Claim C2 counterexample: a body matching only the structured-error
shape decodes to the structured error on the native backend but to the
opaque `Other` error on the browser backend, which only ever decodes the
success shape; so the stated decoding contract does not hold on both
backends. -/
theorem C2_counterexample :
    decOk "body-err" = none
    ∧ decErrShape "body-err" = some "incorrect_login"
    ∧ responseNative decOk decErrShape "body-err" = .error (.lemmy "incorrect_login")
    ∧ responseWasm decOk "body-err"
        = (.error (.other "error decoding response body") : Except (LemmyClientError String) Nat)
    ∧ responseWasm decOk "body-err"
        ≠ (.error (.lemmy "incorrect_login") : Except (LemmyClientError String) Nat) :=
  ⟨rfl, rfl, rfl, rfl, by simp [responseWasm, decOk]⟩

/-- Claim C2 (amended): the native backend's response handling equals the
three-way decoding contract (success shape → typed response; only the
error shape → structured error; neither → `Other`); the browser backend
returns the typed response on a success-shape body, but maps every other
body — whether it matches the structured-error shape or neither shape —
to `Other`, never to the structured error. -/
theorem C2_decode_contract {W R E : Type} (decR : W → Option R) (decE : W → Option E) (w : W) :
    responseNative decR decE w = specDecode decR decE w
    ∧ (∀ r, decR w = some r → responseWasm decR w = (.ok r : Except (LemmyClientError E) R))
    ∧ (decR w = none →
        responseWasm decR w = (.error (.other "error decoding response body")
          : Except (LemmyClientError E) R)) := by
  refine ⟨?_, fun r h => by simp [responseWasm, h], fun h => by simp [responseWasm, h]⟩
  cases hR : decR w with
  | some r => simp [responseNative, specDecode, decodeMyResult, hR, MyResult.intoResult]
  | none =>
    cases hE : decE w with
    | some e =>
      simp [responseNative, specDecode, decodeMyResult, decodeLemmyClientError, hR, hE,
        MyResult.intoResult]
    | none =>
      simp [responseNative, specDecode, decodeMyResult, decodeLemmyClientError, hR, hE]

/-- Claim C2 witness: the amended contract evaluated at concrete decoders
on a success body, on a structured-error body, and on a body matching
neither shape. -/
theorem C2_decode_contract_witness :
    (responseNative decOk decErrShape "body-ok" = specDecode decOk decErrShape "body-ok"
      ∧ responseWasm decOk "body-ok" = (.ok 7 : Except (LemmyClientError String) Nat))
    ∧ (responseNative decOk decErrShape "body-err" = specDecode decOk decErrShape "body-err"
      ∧ responseWasm decOk "body-err"
          = (.error (.other "error decoding response body") : Except (LemmyClientError String) Nat))
    ∧ responseWasm decOk "body-neither"
        = (.error (.other "error decoding response body") : Except (LemmyClientError String) Nat) :=
  ⟨⟨(C2_decode_contract decOk decErrShape "body-ok").1,
    (C2_decode_contract decOk decErrShape "body-ok").2.1 7 rfl⟩,
   ⟨(C2_decode_contract decOk decErrShape "body-err").1,
    (C2_decode_contract decOk decErrShape "body-err").2.2 rfl⟩,
   (C2_decode_contract decOk decErrShape "body-neither").2.2 rfl⟩

/-- Claim C7: on either backend a GET request carries no JSON body and its
URL is the route with the URL-encoded form appended as a query string,
while POST and PUT requests carry the JSON-encoded form as the body and
their URL is exactly the bare route, with no query string appended. -/
theorem C7_body_encoding {F : Type} (toJson : F → String) (toQuery : F → Option String)
    (opts : ClientOptions) (path : String) (body : F) (jwt : Option String)
    (headers : List (String × String)) (q : String) (hq : toQuery body = some q) :
    (makeRequestNative toJson toQuery opts .GET path ⟨body, jwt⟩ headers).builtReq.map
        (fun r => (r.url, r.body)) = some (build_route path opts ++ "?" ++ q, none)
    ∧ (makeRequestWasm toJson toQuery opts .GET path ⟨body, jwt⟩ headers).builtReq.map
        (fun r => (r.url, r.body)) = some (build_route path opts ++ "?" ++ q, none)
    ∧ (makeRequestNative toJson toQuery opts .POST path ⟨body, jwt⟩ headers).builtReq.map
        (fun r => (r.url, r.body)) = some (build_route path opts, some (toJson body))
    ∧ (makeRequestWasm toJson toQuery opts .POST path ⟨body, jwt⟩ headers).builtReq.map
        (fun r => (r.url, r.body)) = some (build_route path opts, some (toJson body))
    ∧ (makeRequestNative toJson toQuery opts .PUT path ⟨body, jwt⟩ headers).builtReq.map
        (fun r => (r.url, r.body)) = some (build_route path opts, some (toJson body))
    ∧ (makeRequestWasm toJson toQuery opts .PUT path ⟨body, jwt⟩ headers).builtReq.map
        (fun r => (r.url, r.body)) = some (build_route path opts, some (toJson body)) := by
  refine ⟨?_, ?_, rfl, rfl, rfl, rfl⟩
  · simp [makeRequestNative, hq, BuildOutcome.builtReq]
  · simp [makeRequestWasm, build_fetch_query, hq, BuildOutcome.builtReq]

/-- Claim C7 witness: the method/body contract evaluated at a concrete
form, path and configuration. -/
theorem C7_body_encoding_witness :
    (makeRequestNative strJson strQuery optsEx .GET "post/list" ⟨"page=1", none⟩ []).builtReq.map
        (fun r => (r.url, r.body)) = some (build_route "post/list" optsEx ++ "?" ++ "page=1", none)
    ∧ (makeRequestWasm strJson strQuery optsEx .GET "post/list" ⟨"page=1", none⟩ []).builtReq.map
        (fun r => (r.url, r.body)) = some (build_route "post/list" optsEx ++ "?" ++ "page=1", none)
    ∧ (makeRequestNative strJson strQuery optsEx .POST "post/list" ⟨"page=1", none⟩ []).builtReq.map
        (fun r => (r.url, r.body)) = some (build_route "post/list" optsEx, some (strJson "page=1"))
    ∧ (makeRequestWasm strJson strQuery optsEx .POST "post/list" ⟨"page=1", none⟩ []).builtReq.map
        (fun r => (r.url, r.body)) = some (build_route "post/list" optsEx, some (strJson "page=1"))
    ∧ (makeRequestNative strJson strQuery optsEx .PUT "post/list" ⟨"page=1", none⟩ []).builtReq.map
        (fun r => (r.url, r.body)) = some (build_route "post/list" optsEx, some (strJson "page=1"))
    ∧ (makeRequestWasm strJson strQuery optsEx .PUT "post/list" ⟨"page=1", none⟩ []).builtReq.map
        (fun r => (r.url, r.body)) = some (build_route "post/list" optsEx, some (strJson "page=1")) :=
  C7_body_encoding strJson strQuery optsEx "post/list" "page=1" none [] "page=1" rfl

/-- Claim C4 counterexample: on the same concrete input (POST, no tokens,
no extra headers) the native and browser backends build different
requests — the native one carries the default user-agent header, the
browser one does not. -/
theorem C4_counterexample :
    makeRequestNative strJson strQuery optsEx .POST "user/login" ⟨"", none⟩ []
      ≠ makeRequestWasm strJson strQuery optsEx .POST "user/login" ⟨"", none⟩ [] := by
  decide

/-- Claim C4 (amended): for methods in {GET, POST, PUT} the two backends
build identical requests provided the form's query encoding succeeds, the
caller supplies a user-agent header, and a per-call token is present
whenever a client-default token is set; and both backends map any body
that decodes under the success shape to the same typed result.  Outside
those provisos they differ in the default user-agent header, the
client-default token fallback, and structured-error decoding. -/
theorem C4_backend_agreement {F W R E : Type} (toJson : F → String) (toQuery : F → Option String)
    (decR : W → Option R) (decE : W → Option E)
    (opts : ClientOptions) (method : Method) (path : String) (body : F) (jwt : Option String)
    (headers : List (String × String)) (q : String)
    (hm : method = .GET ∨ method = .POST ∨ method = .PUT)
    (hq : toQuery body = some q)
    (hua : headers.any uaPred = true)
    (hjwt : jwt = none → opts.jwt = none) :
    makeRequestNative toJson toQuery opts method path ⟨body, jwt⟩ headers
      = makeRequestWasm toJson toQuery opts method path ⟨body, jwt⟩ headers
    ∧ ∀ (w : W) (r : R), decR w = some r → responseNative decR decE w = responseWasm decR w := by
  constructor
  · have hheaders : withHeadersNative [] headers = withHeadersWasm [] headers := by
      simp [withHeadersNative, withHeadersWasm, hua]
    cases jwt with
    | some t =>
      rcases hm with rfl | rfl | rfl <;>
        simp [makeRequestNative, makeRequestWasm, hq, build_fetch_query, hheaders, maybeWithJwt]
    | none =>
      have hopts : opts.jwt = none := hjwt rfl
      rcases hm with rfl | rfl | rfl <;>
        simp [makeRequestNative, makeRequestWasm, hq, build_fetch_query, hheaders, maybeWithJwt,
          hopts]
  · intro w r h
    simp [responseNative, responseWasm, decodeMyResult, h, MyResult.intoResult]

/-- Claim C4 witness: backend agreement evaluated at a concrete GET
request carrying a per-call token and an explicit User-Agent header. -/
theorem C4_backend_agreement_witness :
    makeRequestNative strJson strQuery optsEx .GET "user/login" ⟨"page=1", some "B"⟩
        [("User-Agent", "test")]
      = makeRequestWasm strJson strQuery optsEx .GET "user/login" ⟨"page=1", some "B"⟩
        [("User-Agent", "test")]
    ∧ ∀ (w : String) (r : Nat), decOk w = some r →
        responseNative decOk decErrShape w = responseWasm decOk w :=
  C4_backend_agreement strJson strQuery decOk decErrShape optsEx .GET "user/login" "page=1"
    (some "B") [("User-Agent", "test")] "page=1"
    (Or.inl rfl) rfl (by decide) (fun h => Option.noConfusion h)
